import Mathlib

/-!
Verification development for the real-time chat transport of `patient-psi`:
a shallow embedding of `src/lib/websocket.ts` (`ChatWebSocketServer`) and the
real-time helpers of `src/lib/db.ts` (typing status cache, delivery markers),
together with theorems settling the spec's claims about them.

Timestamps are modelled as `Int` milliseconds (`Date.now()` values); the JS
`Map` is modelled as an insertion-ordered association list with unique keys
(`Map.set` replaces in place, `Map.delete` removes, iteration is in order).
External effects (frames sent, sockets closed, registry mutations) are
recorded as an `Action` trace so that ordering claims can be stated.
-/

namespace PatientPsi

/-- JS `Map.get`: the value stored at `k`, if any. -/
def mapGet (m : List (String × α)) (k : String) : Option α :=
  (m.find? (fun e => e.1 == k)).map (·.2)

/-- JS `Map.set`: replace in place if the key is present, else append. -/
def mapSet (m : List (String × α)) (k : String) (v : α) : List (String × α) :=
  if m.any (fun e => e.1 == k) then
    m.map (fun e => if e.1 == k then (k, v) else e)
  else
    m ++ [(k, v)]

/-- JS `Map.delete`: remove every entry stored at `k`. -/
def mapDelete (m : List (String × α)) (k : String) : List (String × α) :=
  m.filter (fun e => !(e.1 == k))

/-- Millisecond timestamps, as produced by `Date.now()` / `Date.getTime()`. -/
abbrev Time := Int

/-! ## db.ts — real-time support functions -/

/-- `db.ts` state: the in-memory `typingCache` (chatId → `TypingStatus.users`,
each user paired with its `lastTyped` timestamp), the durable `typingStatus`
table rows `(chatId, userId, updatedAt)`, and the durable `messages` table
restricted to the columns the hub touches: `(id, deliveredAt, readAt)`. -/
structure DbState where
  typingCache : List (String × List (String × Time))
  typingTable : List (String × String × Time)
  messages : List (String × Option Time × Option Time)
  deriving DecidableEq, Repr

/-- `const TYPING_TIMEOUT = 10000; // 10 seconds` -/
def TYPING_TIMEOUT : Int := 10000

/-- `getTypingUsers(chatId)`: on cache hit, filter the cached users by
`now - lastTyped < TYPING_TIMEOUT` and return them without touching state.
On cache miss, select rows of `typingStatus` with this `chatId` and
`updatedAt > NOW() - TYPING_TIMEOUT`, repopulate the cache stamping each
user with `lastTyped: new Date()` (i.e. the query time `now`, not the row's
`updatedAt`), and return their userIds.  The whole body is wrapped in
`try/catch`; `dbFails` models the select throwing, in which case the catch
returns `[]`. -/
def getTypingUsers (s : DbState) (chatId : String) (now : Time) (dbFails : Bool) :
    DbState × List String :=
  match mapGet s.typingCache chatId with
  | some users =>
      (s, (users.filter (fun u => now - u.2 < TYPING_TIMEOUT)).map (·.1))
  | none =>
      if dbFails then (s, [])
      else
        let result := s.typingTable.filter
          (fun r => r.1 == chatId && now - TYPING_TIMEOUT < r.2.2)
        let s' := { s with
          typingCache := mapSet s.typingCache chatId (result.map (fun r => (r.2.1, now))) }
        (s', result.map (·.2.1))

/-- Shared shape of the cache cleanup in `clearTypingStatus` and in the
failure branch of `updateTypingStatus`: drop the user from the chat's cached
list and delete the chat key when the list becomes empty. -/
def cacheRemoveUser (cache : List (String × List (String × Time)))
    (chatId userId : String) : List (String × List (String × Time)) :=
  match mapGet cache chatId with
  | none => cache
  | some users =>
      let users' := users.filter (fun u => !(u.1 == userId))
      if users'.isEmpty then mapDelete cache chatId
      else mapSet cache chatId users'

/-- `INSERT ... ON CONFLICT (chatId, userId) DO UPDATE SET updatedAt`. -/
def upsertTyping (t : List (String × String × Time)) (chatId userId : String)
    (now : Time) : List (String × String × Time) :=
  if t.any (fun r => r.1 == chatId && r.2.1 == userId) then
    t.map (fun r => if r.1 == chatId && r.2.1 == userId then (chatId, userId, now) else r)
  else
    t ++ [(chatId, userId, now)]

/-- `updateTypingStatus(chatId, userId)`: first write/refresh the cache entry
(`lastTyped: new Date()` = `now`), then upsert the durable row.  `dbFails`
models the durable write throwing: the catch removes the user's entry from
the cache (deleting the chat key if it became empty) and swallows the error,
so the function always returns normally. -/
def updateTypingStatus (s : DbState) (chatId userId : String) (now : Time)
    (dbFails : Bool) : DbState :=
  let cache' :=
    match mapGet s.typingCache chatId with
    | some users =>
        if users.any (fun u => u.1 == userId) then
          mapSet s.typingCache chatId
            (users.map (fun u => if u.1 == userId then (userId, now) else u))
        else
          mapSet s.typingCache chatId (users ++ [(userId, now)])
    | none => mapSet s.typingCache chatId [(userId, now)]
  if dbFails then
    { s with typingCache := cacheRemoveUser cache' chatId userId }
  else
    { s with typingCache := cache',
             typingTable := upsertTyping s.typingTable chatId userId now }

/-- `clearTypingStatus(chatId, userId)`: remove from the cache first, then
delete the durable row; a throw from the delete (`dbFails`) is caught and
swallowed, leaving the durable row in place. -/
def clearTypingStatus (s : DbState) (chatId userId : String) (dbFails : Bool) :
    DbState :=
  let s' := { s with typingCache := cacheRemoveUser s.typingCache chatId userId }
  if dbFails then s'
  else { s' with typingTable :=
    s'.typingTable.filter (fun r => !(r.1 == chatId && r.2.1 == userId)) }

/-- `markMessageAsDelivered(messageId)`: `UPDATE messages SET deliveredAt = new Date()
WHERE id = messageId`.  A non-matching id updates no row and is not an error. -/
def markMessageAsDelivered (s : DbState) (messageId : String) (now : Time) : DbState :=
  { s with messages :=
      s.messages.map (fun m => if m.1 == messageId then (m.1, some now, m.2.2) else m) }

/-- `markMessageAsRead(messageId)`: `UPDATE messages SET readAt = new Date()
WHERE id = messageId`. -/
def markMessageAsRead (s : DbState) (messageId : String) (now : Time) : DbState :=
  { s with messages :=
      s.messages.map (fun m => if m.1 == messageId then (m.1, m.2.1, some now) else m) }

/-- The cached `lastTyped` stamp for `(chatId, userId)`, if present. -/
def cacheUserStamp (s : DbState) (chatId userId : String) : Option Time :=
  (mapGet s.typingCache chatId).bind
    (fun users => (users.find? (fun u => u.1 == userId)).map (·.2))

/-- The durable `updatedAt` for `(chatId, userId)` in `typingStatus`, if present. -/
def tableStamp (s : DbState) (chatId userId : String) : Option Time :=
  (s.typingTable.find? (fun r => r.1 == chatId && r.2.1 == userId)).map (·.2.2)

/-- The delivery marker stored for a message id, if the row exists. -/
def messageMarker (s : DbState) (messageId : String) : Option (Option Time × Option Time) :=
  (s.messages.find? (fun m => m.1 == messageId)).map (·.2)

/-! ## websocket.ts — ChatWebSocketServer -/

/-- A `ChatClient` entry: `{ userId, chatId?, ws, lastActivity }`.  The
transport handle is identified by `wsId`; two connections never share one. -/
structure ChatClient where
  userId : String
  chatId : Option String
  wsId : Nat
  lastActivity : Time
  deriving DecidableEq, Repr

/-- Outbound wire frames (`WebSocketMessage` values the server builds). -/
inductive Frame where
  | connectionEstablished (userId : String)
  | userJoined (userId chatId : String)
  | userLeft (userId chatId : String)
  | typingStatus (users : List String)
  | messageDelivered (messageId userId : String)
  | messageRead (messageId userId : String)
  | errorFrame (message : String)
  | ping
  deriving DecidableEq, Repr

/-- Observable effects, in the order the code performs them:
`frameSent` is a successful `ws.send`, `closeWs` a `ws.close(code, reason)`,
`registryStore`/`registryDelete` are `clients.set`/`clients.delete`,
`typingCleared` marks a hub-side call to `db.clearTypingStatus`, and
`broadcastEvent` marks a call to `broadcastToChatParticipants` (followed by
the `frameSent` actions for each reached member). -/
inductive Action where
  | frameSent (wsId : Nat) (frame : Frame)
  | closeWs (wsId : Nat) (code : Nat) (reason : String)
  | registryStore (userId : String) (wsId : Nat)
  | registryDelete (userId : String)
  | typingCleared (chatId userId : String)
  | broadcastEvent (chatId : String) (frame : Frame)
  deriving DecidableEq, Repr

/-- Hub state: the `clients` registry (`Map<userId, ChatClient>`) plus the
`db.ts` module state. -/
structure HubState where
  clients : List (String × ChatClient)
  db : DbState
  deriving DecidableEq, Repr

/-- Environment of a step: `sendOk ws` tells whether `ws.send` on that
transport succeeds or throws; `gwOk` tells whether Persistence Gateway calls
made during the step succeed; `now` is the current `Date.now()`. -/
structure Env where
  sendOk : Nat → Bool
  gwOk : Bool
  now : Time

/-- `const CLIENT_TIMEOUT = 60000`. -/
def CLIENT_TIMEOUT : Int := 60000

/-- `sendToClient(client, message)`: `try { ws.send(...) } catch { clients.delete(client.userId) }`.
On a send failure the client's registry entry is deleted — nothing else runs. -/
def sendToClient (env : Env) (s : HubState) (c : ChatClient) (f : Frame) :
    HubState × List Action :=
  if env.sendOk c.wsId then
    (s, [Action.frameSent c.wsId f])
  else
    ({ s with clients := mapDelete s.clients c.userId },
     [Action.registryDelete c.userId])

/-- One iteration of `broadcastToChatParticipants`'s `clients.forEach`: send
to the client when its `chatId` matches and its `userId` is not excluded. -/
def broadcastStep (env : Env) (chatId : String) (f : Frame) (ex : Option String)
    (acc : HubState × List Action) (e : String × ChatClient) : HubState × List Action :=
  if e.2.chatId == some chatId && (ex.elim true (fun x => !(e.2.userId == x))) then
    let r := sendToClient env acc.1 e.2 f
    (r.1, acc.2 ++ r.2)
  else acc

/-- `broadcastToChatParticipants(chatId, message, excludeUserId?)`: iterate the
registry and `sendToClient` to every client whose `chatId` matches and whose
`userId` is not excluded.  Emits a `broadcastEvent` marker, then the sends. -/
def broadcastToChatParticipants (env : Env) (s : HubState) (chatId : String)
    (f : Frame) (excludeUserId : Option String) : HubState × List Action :=
  let p := s.clients.foldl (broadcastStep env chatId f excludeUserId) (s, [])
  (p.1, Action.broadcastEvent chatId f :: p.2)

/-- Mutating a captured `client` object (`client.chatId = ...`) is visible
through the registry exactly when the registry still holds that same object;
object identity is tracked by `(userId, wsId)`. -/
def updateClientInRegistry (clients : List (String × ChatClient)) (c : ChatClient) :
    List (String × ChatClient) :=
  clients.map (fun e =>
    if e.1 == c.userId && e.2.wsId == c.wsId then (e.1, c) else e)

/-- `handleLeaveChat(client)`: no-op when the client has no chat; otherwise
clear the typing status for `(chatId, userId)`, set `client.chatId = undefined`,
and broadcast `user_left` to the chat's members excluding the leaver.
Returns the mutated client object alongside the state and trace. -/
def handleLeaveChat (env : Env) (s : HubState) (c : ChatClient) :
    HubState × ChatClient × List Action :=
  match c.chatId with
  | none => (s, c, [])
  | some chatId =>
      let s1 := { s with db := clearTypingStatus s.db chatId c.userId (!env.gwOk) }
      let c' := { c with chatId := none }
      let s2 := { s1 with clients := updateClientInRegistry s1.clients c' }
      let r := broadcastToChatParticipants env s2 chatId
        (Frame.userLeft c.userId chatId) (some c.userId)
      (r.1, c', Action.typingCleared chatId c.userId :: r.2)

/-- `handleJoinChat(client, { chatId })`: if the client already has a chat,
only `db.clearTypingStatus(oldChat, userId)` runs for it; then
`client.chatId = chatId`, `user_joined` is broadcast to the new chat's other
members, and the current typing-user set is sent back to the joiner. -/
def handleJoinChat (env : Env) (s : HubState) (c : ChatClient) (chatId : String) :
    HubState × ChatClient × List Action :=
  let r1 : HubState × List Action :=
    match c.chatId with
    | some oldChat =>
        ({ s with db := clearTypingStatus s.db oldChat c.userId (!env.gwOk) },
         [Action.typingCleared oldChat c.userId])
    | none => (s, [])
  let s1 := r1.1
  let acts1 := r1.2
  let c' := { c with chatId := some chatId }
  let s2 := { s1 with clients := updateClientInRegistry s1.clients c' }
  let rb := broadcastToChatParticipants env s2 chatId
    (Frame.userJoined c.userId chatId) (some c.userId)
  let rq := getTypingUsers rb.1.db chatId env.now (!env.gwOk)
  let s4 := { rb.1 with db := rq.1 }
  let rs := sendToClient env s4 c' (Frame.typingStatus rq.2)
  (rs.1, c', acts1 ++ rb.2 ++ rs.2)

/-- `handleTypingStart(client)`: no-op without a chat; otherwise update the
typing status for `(chatId, userId)` and broadcast the freshly read
typing-user set to every participant (no exclusion). -/
def handleTypingStart (env : Env) (s : HubState) (c : ChatClient) :
    HubState × ChatClient × List Action :=
  match c.chatId with
  | none => (s, c, [])
  | some chatId =>
      let s1 := { s with db := updateTypingStatus s.db chatId c.userId env.now (!env.gwOk) }
      let rq := getTypingUsers s1.db chatId env.now (!env.gwOk)
      let s2 := { s1 with db := rq.1 }
      let rb := broadcastToChatParticipants env s2 chatId
        (Frame.typingStatus rq.2) none
      (rb.1, c, rb.2)

/-- `handleTypingEnd(client)`: no-op without a chat; otherwise clear the
typing status and broadcast the updated set to every participant. -/
def handleTypingEnd (env : Env) (s : HubState) (c : ChatClient) :
    HubState × ChatClient × List Action :=
  match c.chatId with
  | none => (s, c, [])
  | some chatId =>
      let s1 := { s with db := clearTypingStatus s.db chatId c.userId (!env.gwOk) }
      let rq := getTypingUsers s1.db chatId env.now (!env.gwOk)
      let s2 := { s1 with db := rq.1 }
      let rb := broadcastToChatParticipants env s2 chatId
        (Frame.typingStatus rq.2) none
      (rb.1, c, Action.typingCleared chatId c.userId :: rb.2)

/-- `handleMessageDelivered(client, { messageId })`: always mark the message
delivered; broadcast `message_delivered{messageId, userId}` to the client's
chat only when the client currently has one. -/
def handleMessageDelivered (env : Env) (s : HubState) (c : ChatClient)
    (messageId : String) : HubState × ChatClient × List Action :=
  let s1 := { s with db := markMessageAsDelivered s.db messageId env.now }
  match c.chatId with
  | none => (s1, c, [])
  | some chatId =>
      let rb := broadcastToChatParticipants env s1 chatId
        (Frame.messageDelivered messageId c.userId) none
      (rb.1, c, rb.2)

/-- `handleMessageRead(client, { messageId })`: always mark the message read;
broadcast `message_read{messageId, userId}` only when the client has a chat. -/
def handleMessageRead (env : Env) (s : HubState) (c : ChatClient)
    (messageId : String) : HubState × ChatClient × List Action :=
  let s1 := { s with db := markMessageAsRead s.db messageId env.now }
  match c.chatId with
  | none => (s1, c, [])
  | some chatId =>
      let rb := broadcastToChatParticipants env s1 chatId
        (Frame.messageRead messageId c.userId) none
      (rb.1, c, rb.2)

/-- `handleDisconnect(client)` (the transport `close` handler): run
`handleLeaveChat` when the client holds a chat, then delete the registry
entry for its userId. -/
def handleDisconnect (env : Env) (s : HubState) (c : ChatClient) :
    HubState × List Action :=
  let r : HubState × ChatClient × List Action :=
    match c.chatId with
    | some _ => handleLeaveChat env s c
    | none => (s, c, [])
  ({ r.1 with clients := mapDelete r.1.clients r.2.1.userId },
   r.2.2 ++ [Action.registryDelete r.2.1.userId])

/-- One tick of `startHeartbeat`'s interval body: for each registry entry in
order, if `now - lastActivity > CLIENT_TIMEOUT` then `ws.close(1000, 'Connection
timed out')` and `clients.delete(userId)`; otherwise try to send a `ping`
frame, deleting the entry when the send throws.  No leave cleanup runs here —
the close callback fires only later, after the entry is already gone. -/
def heartbeatTick (env : Env) (s : HubState) : HubState × List Action :=
  s.clients.foldl
    (fun (acc : HubState × List Action) (e : String × ChatClient) =>
      if env.now - e.2.lastActivity > CLIENT_TIMEOUT then
        ({ acc.1 with clients := mapDelete acc.1.clients e.1 },
         acc.2 ++ [Action.closeWs e.2.wsId 1000 "Connection timed out",
                   Action.registryDelete e.1])
      else
        if env.sendOk e.2.wsId then
          (acc.1, acc.2 ++ [Action.frameSent e.2.wsId Frame.ping])
        else
          ({ acc.1 with clients := mapDelete acc.1.clients e.1 },
           acc.2 ++ [Action.registryDelete e.1]))
    (s, [])

/-- `extractToken(req)`: `query.token || null` — a missing token and the
falsy empty string both yield `null`. -/
def extractToken (query : List (String × String)) : Option String :=
  match mapGet query "token" with
  | some t => if t == "" then none else some t
  | none => none

/-- `handleNewConnection(ws, req)`, with `verify` standing for
`authenticateUser` (jwt verification returning the `sub` claim or `null`).
No/invalid token closes the socket with 1008 before anything is stored; an
existing client for the user is closed with `1000, 'New connection
established'` and deleted, then the new client is stored and
`connection_established` is sent to it. -/
def handleNewConnection (env : Env) (verify : String → Option String)
    (s : HubState) (token : Option String) (ws : Nat) : HubState × List Action :=
  match token with
  | none => (s, [Action.closeWs ws 1008 "Authentication required"])
  | some t =>
    match verify t with
    | none => (s, [Action.closeWs ws 1008 "Invalid authentication"])
    | some userId =>
        let r1 : HubState × List Action :=
          match mapGet s.clients userId with
          | some existing =>
              ({ s with clients := mapDelete s.clients userId },
               [Action.closeWs existing.wsId 1000 "New connection established",
                Action.registryDelete userId])
          | none => (s, [])
        let c : ChatClient :=
          { userId := userId, chatId := none, wsId := ws, lastActivity := env.now }
        let s2 := { r1.1 with clients := mapSet r1.1.clients userId c }
        let rs := sendToClient env s2 c (Frame.connectionEstablished userId)
        (rs.1, r1.2 ++ [Action.registryStore userId ws] ++ rs.2)

/-- An inbound frame after `JSON.parse` succeeded: the recognized types, or
`unknown` carrying an unrecognized `message.type`. -/
inductive InboundFrame where
  | joinChat (chatId : String)
  | leaveChat
  | typingStart
  | typingEnd
  | msgDelivered (messageId : String)
  | msgRead (messageId : String)
  | pong
  | unknown (ty : String)
  deriving DecidableEq, Repr

/-- `handleMessage(client, data)`: `none` models `JSON.parse` throwing — the
catch sends an `error` frame (`'Failed to process message'`) to the sender.
A parsed frame is dispatched by `message.type`; `pong` does nothing and an
unrecognized type only logs a warning (`console.warn`) — no error frame. -/
def handleMessage (env : Env) (s : HubState) (c : ChatClient)
    (msg : Option InboundFrame) : HubState × ChatClient × List Action :=
  match msg with
  | none =>
      let r := sendToClient env s c (Frame.errorFrame "Failed to process message")
      (r.1, c, r.2)
  | some f =>
      match f with
      | .joinChat chatId => handleJoinChat env s c chatId
      | .leaveChat => handleLeaveChat env s c
      | .typingStart => handleTypingStart env s c
      | .typingEnd => handleTypingEnd env s c
      | .msgDelivered messageId => handleMessageDelivered env s c messageId
      | .msgRead messageId => handleMessageRead env s c messageId
      | .pong => (s, c, [])
      | .unknown _ => (s, c, [])

/-! ## Concrete instances used to exercise the model -/

/-- An environment whose sends all succeed and whose gateway is healthy. -/
def okEnv (now : Time) : Env := { sendOk := fun _ => true, gwOk := true, now := now }

/-- An environment where `ws.send` throws exactly on transport `w`. -/
def failSendEnv (w : Nat) (now : Time) : Env :=
  { sendOk := fun x => !(x == w), gwOk := true, now := now }

/-- Client `u1` on transport 1, joined to chat `c1`, last active at t = 0. -/
def exClientU1 : ChatClient :=
  { userId := "u1", chatId := some "c1", wsId := 1, lastActivity := 0 }

/-- Client `u2` on transport 2, joined to chat `c1`, last active at t = 60500. -/
def exClientU2 : ChatClient :=
  { userId := "u2", chatId := some "c1", wsId := 2, lastActivity := 60500 }

/-- Client `u3` on transport 3, in no chat. -/
def exClientU3 : ChatClient :=
  { userId := "u3", chatId := none, wsId := 3, lastActivity := 0 }

/-- Db state: `u1` typed in `c1` at t = 55000 (cache and durable row agree);
one message `m1` with no delivery marker yet. -/
def exDb : DbState :=
  { typingCache := [("c1", [("u1", 55000)])],
    typingTable := [("c1", "u1", 55000)],
    messages := [("m1", none, none)] }

/-- Hub with `u1` and `u2` both in chat `c1`, over `exDb`. -/
def exHub : HubState := { clients := [("u1", exClientU1), ("u2", exClientU2)], db := exDb }

/-- Hub that additionally registers `u3`, which is in no chat. -/
def exHub3 : HubState :=
  { clients := [("u1", exClientU1), ("u2", exClientU2), ("u3", exClientU3)], db := exDb }

/-- A token verifier accepting exactly the token `"tok"` as user `u1`. -/
def exVerify : String → Option String :=
  fun t => if t == "tok" then some "u1" else none

/-- `u1` types in `c1` at t = 0 against an empty store: cache and durable row
both record t = 0. -/
def typedAt0 : DbState :=
  updateTypingStatus { typingCache := [], typingTable := [], messages := [] } "c1" "u1" 0 false

/-- At t = 500 the same user types again but the Persistence Gateway write
fails: the rollback empties the cache while the durable row keeps t = 0. -/
def typedRolledBack : DbState := updateTypingStatus typedAt0 "c1" "u1" 500 true

/-- A read at t = 9000: a cache miss, served from the durable row. -/
def queryAt9s : DbState × List String := getTypingUsers typedRolledBack "c1" 9000 false

/-- A read at t = 18000 against the repopulated cache. -/
def queryAt18s : DbState × List String := getTypingUsers queryAt9s.1 "c1" 18000 false

/-! ## Lemmas about the Map model -/

theorem mapGet_mapDelete_self (m : List (String × α)) (k : String) :
    mapGet (mapDelete m k) k = none := by
  have h : (m.filter (fun e => !(e.1 == k))).find? (fun e => e.1 == k) = none := by
    rw [List.find?_eq_none]
    intro x hx
    have hx2 := (List.mem_filter.mp hx).2
    simp only [Bool.not_eq_true'] at hx2
    simp [hx2]
  simp [mapGet, mapDelete, h]

theorem find?_replace_of_any (m : List (String × α)) (k : String) (v : α)
    (h : m.any (fun e => e.1 == k) = true) :
    (m.map (fun e => if e.1 == k then (k, v) else e)).find? (fun e => e.1 == k)
      = some (k, v) := by
  induction m with
  | nil => simp at h
  | cons a t ih =>
      by_cases ha : (a.1 == k) = true
      · simp only [List.map_cons, if_pos ha]
        exact List.find?_cons_of_pos _ (by simp)
      · simp only [List.map_cons, if_neg ha]
        rw [List.find?_cons_of_neg _ (by simp [ha])]
        exact ih (by simpa [ha] using h)

theorem mapGet_mapSet_self (m : List (String × α)) (k : String) (v : α) :
    mapGet (mapSet m k v) k = some v := by
  unfold mapGet mapSet
  by_cases h : m.any (fun e => e.1 == k) = true
  · rw [if_pos h, find?_replace_of_any m k v h]
    rfl
  · rw [if_neg h, List.find?_append]
    have hm : m.find? (fun e => e.1 == k) = none := by
      rw [List.find?_eq_none]
      intro x hx
      intro hxk
      exact h (List.any_eq_true.mpr ⟨x, hx, hxk⟩)
    rw [hm]
    simp

theorem mapDelete_any_self (m : List (String × α)) (k : String) :
    (mapDelete m k).any (fun e => e.1 == k) = false := by
  rw [List.any_eq_false]
  intro x hx
  have hx2 := (List.mem_filter.mp hx).2
  simp only [Bool.not_eq_true'] at hx2
  simp [hx2]

theorem mapSet_mapDelete (m : List (String × α)) (k : String) (v : α) :
    mapSet (mapDelete m k) k v = mapDelete m k ++ [(k, v)] := by
  unfold mapSet
  simp [mapDelete_any_self]

theorem countP_mapSet_mapDelete (m : List (String × α)) (k : String) (v : α) :
    (mapSet (mapDelete m k) k v).countP (fun e => e.1 == k) = 1 := by
  rw [mapSet_mapDelete, List.countP_append]
  have h0 : (mapDelete m k).countP (fun e => e.1 == k) = 0 := by
    rw [List.countP_eq_zero]
    intro a ha
    have ha2 := (List.mem_filter.mp ha).2
    simp only [Bool.not_eq_true'] at ha2
    simp [ha2]
  rw [h0]
  simp [List.countP_cons]

theorem find?_filter_not (l : List α) (p : α → Bool) :
    (l.filter (fun x => !(p x))).find? p = none := by
  rw [List.find?_eq_none]
  intro x hx
  have hx2 := (List.mem_filter.mp hx).2
  simp only [Bool.not_eq_true'] at hx2
  simp [hx2]

theorem cacheRemoveUser_stamp (cache : List (String × List (String × Time)))
    (chatId userId : String) :
    (mapGet (cacheRemoveUser cache chatId userId) chatId).bind
      (fun users => (users.find? (fun u => u.1 == userId)).map (·.2)) = none := by
  unfold cacheRemoveUser
  cases h : mapGet cache chatId with
  | none =>
      rw [h]
      rfl
  | some users =>
      by_cases he : (users.filter (fun u => !(u.1 == userId))).isEmpty = true
      · simp [he, mapGet_mapDelete_self]
      · simp [he, mapGet_mapSet_self, find?_filter_not]

/-! ## Claims -/

/-- C1: the claim says every disconnection path (transport close, transport
error, heartbeat eviction, send-failure removal) runs the room-leave cleanup
— clearing the user's typing entry and broadcasting `user_left` — before the
registry entry is deleted.  Evaluating the code at the failing input refutes
this: a heartbeat tick at t = 61000 evicting `u1` (stale since t = 0, member
of `c1` with a typing entry) emits only `closeWs` and `registryDelete` — no
`typingCleared`, no `user_left` — and afterwards `u1`'s registry entry is
gone while its typing entry is still cached; likewise a failed
`sendToClient` deletes `u1`'s registry entry with no cleanup at all.  Only
the transport-close path (`handleDisconnect`) orders leave before removal. -/
theorem C1_cleanup_ordering_code_eval :
    (heartbeatTick (okEnv 61000) exHub).2
      = [Action.closeWs 1 1000 "Connection timed out",
         Action.registryDelete "u1",
         Action.frameSent 2 Frame.ping]
    ∧ mapGet (heartbeatTick (okEnv 61000) exHub).1.clients "u1" = none
    ∧ cacheUserStamp (heartbeatTick (okEnv 61000) exHub).1.db "c1" "u1" = some 55000
    ∧ (sendToClient (failSendEnv 1 61000) exHub exClientU1 Frame.ping).2
      = [Action.registryDelete "u1"]
    ∧ mapGet (sendToClient (failSendEnv 1 61000) exHub exClientU1 Frame.ping).1.clients "u1"
      = none
    ∧ cacheUserStamp (sendToClient (failSendEnv 1 61000) exHub exClientU1 Frame.ping).1.db
        "c1" "u1" = some 55000 :=
  ⟨rfl, rfl, rfl, rfl, rfl, rfl⟩

/-- C3: the claim says `getTypingUsers(chatId)` never returns a user whose
last-typed timestamp is older than 10s at query time, including after the
cache is repopulated from the Persistence Gateway.  Refuted by evaluation on
a reachable trace: `u1` types at t = 0, a failed gateway write at t = 500
rolls the cache back (durable row keeps `updatedAt = 0`), a read at t = 9000
misses the cache and repopulates it stamping `lastTyped` with the query time
9000 instead of the row's 0, and a read at t = 18000 still returns `u1` —
18 s after the user last typed. -/
theorem C3_expired_entry_returned_code_eval :
    typedRolledBack.typingCache = []
    ∧ tableStamp typedRolledBack "c1" "u1" = some 0
    ∧ queryAt9s.2 = ["u1"]
    ∧ cacheUserStamp queryAt9s.1 "c1" "u1" = some 9000
    ∧ tableStamp queryAt18s.1 "c1" "u1" = some 0
    ∧ queryAt18s.2 = ["u1"]
    ∧ (18000 : Int) - 0 > TYPING_TIMEOUT :=
  ⟨rfl, rfl, rfl, rfl, rfl, rfl, by decide⟩

/-- C5: if the Persistence Gateway write inside
`updateTypingStatus(chatId, userId)` fails, the cache entry just written for
that user is rolled back — afterwards the cache holds no stamp for
`(chatId, userId)`.  The operation returning normally without propagating
the error is captured by `updateTypingStatus` being a total function into
`DbState` (the `catch` swallows the error). -/
theorem C5_update_failure_rolls_back_cache (s : DbState) (chatId userId : String)
    (now : Time) :
    cacheUserStamp (updateTypingStatus s chatId userId now true) chatId userId = none := by
  unfold cacheUserStamp updateTypingStatus
  simp only [if_true]
  exact cacheRemoveUser_stamp _ _ _

/-- C9: when `chatId` is not in the fast-path cache and the Persistence
Gateway read inside `getTypingUsers` throws, the catch returns the empty
list, leaving the state untouched; no error reaches the caller. -/
theorem C9_read_failure_returns_empty (s : DbState) (chatId : String) (now : Time)
    (h : mapGet s.typingCache chatId = none) :
    getTypingUsers s chatId now true = (s, []) := by
  unfold getTypingUsers
  rw [h]
  rfl

/-- Witness for C9 at a concrete input: an empty cache with one durable row. -/
theorem find?_markDel (l : List (String × Option Time × Option Time))
    (id : String) (now : Time) :
    ((l.map (fun m => if m.1 == id then (m.1, some now, m.2.2) else m)).find?
        (fun m => m.1 == id)).map (·.2)
      = ((l.find? (fun m => m.1 == id)).map (·.2)).map (fun p => (some now, p.2)) := by
  induction l with
  | nil => rfl
  | cons a t ih =>
      by_cases ha : (a.1 == id) = true
      · simp [List.find?, ha]
      · have ha' : (a.1 == id) = false := by simpa using ha
        simpa [List.find?, ha'] using ih

theorem find?_markRead (l : List (String × Option Time × Option Time))
    (id : String) (now : Time) :
    ((l.map (fun m => if m.1 == id then (m.1, m.2.1, some now) else m)).find?
        (fun m => m.1 == id)).map (·.2)
      = ((l.find? (fun m => m.1 == id)).map (·.2)).map (fun p => (p.1, some now)) := by
  induction l with
  | nil => rfl
  | cons a t ih =>
      by_cases ha : (a.1 == id) = true
      · simp [List.find?, ha]
      · have ha' : (a.1 == id) = false := by simpa using ha
        simpa [List.find?, ha'] using ih

theorem messageMarker_markDelivered (s : DbState) (id : String) (now : Time) :
    messageMarker (markMessageAsDelivered s id now) id
      = (messageMarker s id).map (fun p => (some now, p.2)) := by
  unfold messageMarker markMessageAsDelivered
  exact find?_markDel s.messages id now

theorem messageMarker_markRead (s : DbState) (id : String) (now : Time) :
    messageMarker (markMessageAsRead s id now) id
      = (messageMarker s id).map (fun p => (p.1, some now)) := by
  unfold messageMarker markMessageAsRead
  exact find?_markRead s.messages id now

theorem C9_read_failure_witness :
    getTypingUsers { typingCache := [], typingTable := [("c1", "u1", 0)], messages := [] }
      "c1" 5000 true
    = ({ typingCache := [], typingTable := [("c1", "u1", 0)], messages := [] }, []) :=
  C9_read_failure_returns_empty _ _ _ rfl

/-- C7: marking a message delivered twice raises no error (both calls are
total `UPDATE`s), the second call's `deliveredAt` wins, and every hub-side
`message_delivered` handled while the sender is in a chat issues a broadcast
to that chat. -/
theorem C7_mark_delivered_idempotent (db : DbState) (id : String) (t1 t2 : Time)
    (m : Option Time × Option Time) (env : Env) (s : HubState) (c : ChatClient)
    (chatId mid : String)
    (hm : messageMarker db id = some m) (hc : c.chatId = some chatId) :
    messageMarker (markMessageAsDelivered (markMessageAsDelivered db id t1) id t2) id
      = some (some t2, m.2)
    ∧ ∃ rest, (handleMessageDelivered env s c mid).2.2
        = Action.broadcastEvent chatId (Frame.messageDelivered mid c.userId) :: rest := by
  constructor
  · rw [messageMarker_markDelivered, messageMarker_markDelivered, hm]
    rfl
  · unfold handleMessageDelivered
    rw [hc]
    exact ⟨_, rfl⟩

/-- Witness for C7: marking `m1` at t = 100 then t = 200 leaves
`deliveredAt = 200`; `u1` (in chat `c1`) handling `message_delivered`
broadcasts to `c1`. -/
theorem C7_witness :
    messageMarker (markMessageAsDelivered (markMessageAsDelivered exDb "m1" 100) "m1" 200) "m1"
      = some (some 200, none)
    ∧ ∃ rest, (handleMessageDelivered (okEnv 200) exHub exClientU1 "m1").2.2
        = Action.broadcastEvent "c1" (Frame.messageDelivered "m1" "u1") :: rest :=
  C7_mark_delivered_idempotent exDb "m1" 100 200 (none, none) (okEnv 200) exHub exClientU1
    "c1" "m1" rfl rfl

/-- C10: a client with no current chat handling `message_delivered`
(resp. `message_read`) still durably stamps the marker via the gateway but
sends no broadcast — the handler returns with an empty action trace. -/
theorem C10_no_chat_marks_without_broadcast (env : Env) (s : HubState) (c : ChatClient)
    (id : String) (m : Option Time × Option Time)
    (hc : c.chatId = none) (hm : messageMarker s.db id = some m) :
    handleMessageDelivered env s c id
      = ({ s with db := markMessageAsDelivered s.db id env.now }, c, [])
    ∧ messageMarker (markMessageAsDelivered s.db id env.now) id = some (some env.now, m.2)
    ∧ handleMessageRead env s c id
      = ({ s with db := markMessageAsRead s.db id env.now }, c, [])
    ∧ messageMarker (markMessageAsRead s.db id env.now) id = some (m.1, some env.now) := by
  refine ⟨?_, ?_, ?_, ?_⟩
  · unfold handleMessageDelivered
    rw [hc]
  · rw [messageMarker_markDelivered, hm]
    rfl
  · unfold handleMessageRead
    rw [hc]
  · rw [messageMarker_markRead, hm]
    rfl

/-- Witness for C10: `u3` has no chat; `m1`'s marker is stamped and no
action is emitted. -/
theorem C10_witness :
    handleMessageDelivered (okEnv 70000) exHub3 exClientU3 "m1"
      = ({ exHub3 with db := markMessageAsDelivered exHub3.db "m1" 70000 }, exClientU3, [])
    ∧ messageMarker (markMessageAsDelivered exHub3.db "m1" 70000) "m1" = some (some 70000, none)
    ∧ handleMessageRead (okEnv 70000) exHub3 exClientU3 "m1"
      = ({ exHub3 with db := markMessageAsRead exHub3.db "m1" 70000 }, exClientU3, [])
    ∧ messageMarker (markMessageAsRead exHub3.db "m1" 70000) "m1" = some (none, some 70000) :=
  C10_no_chat_marks_without_broadcast (okEnv 70000) exHub3 exClientU3 "m1" (none, none) rfl rfl

/-- C4: admitting a new connection `ws` for a user that already has a
registered connection `a` closes `a` (the spec's "superseded" close:
code 1000, reason `'New connection established'`, distinct from the timeout
close) and deletes its entry strictly before the new client is stored; the
exact trace shows the order.  Afterwards the registry holds exactly one
entry for the user — the new client — so each user has at most one live
registered connection. -/
theorem C4_admit_supersedes (env : Env) (verify : String → Option String)
    (s : HubState) (token userId : String) (a : ChatClient) (ws : Nat)
    (hv : verify token = some userId)
    (ha : mapGet s.clients userId = some a)
    (hs : env.sendOk ws = true) :
    (handleNewConnection env verify s (some token) ws).2
      = [Action.closeWs a.wsId 1000 "New connection established",
         Action.registryDelete userId,
         Action.registryStore userId ws,
         Action.frameSent ws (Frame.connectionEstablished userId)]
    ∧ mapGet (handleNewConnection env verify s (some token) ws).1.clients userId
      = some { userId := userId, chatId := none, wsId := ws, lastActivity := env.now }
    ∧ (handleNewConnection env verify s (some token) ws).1.clients.countP
        (fun e => e.1 == userId) = 1 := by
  unfold handleNewConnection sendToClient
  simp only [hv, ha, hs]
  refine ⟨rfl, ?_, ?_⟩
  · exact mapGet_mapSet_self _ _ _
  · exact countP_mapSet_mapDelete _ _ _

/-- Witness for C4: `u1` (connection `exClientU1` on transport 1) is
superseded by a new connection on transport 9. -/
theorem C4_witness :
    (handleNewConnection (okEnv 70000) exVerify exHub (some "tok") 9).2
      = [Action.closeWs 1 1000 "New connection established",
         Action.registryDelete "u1",
         Action.registryStore "u1" 9,
         Action.frameSent 9 (Frame.connectionEstablished "u1")]
    ∧ mapGet (handleNewConnection (okEnv 70000) exVerify exHub (some "tok") 9).1.clients "u1"
      = some { userId := "u1", chatId := none, wsId := 9, lastActivity := 70000 }
    ∧ (handleNewConnection (okEnv 70000) exVerify exHub (some "tok") 9).1.clients.countP
        (fun e => e.1 == "u1") = 1 :=
  C4_admit_supersedes (okEnv 70000) exVerify exHub "tok" "u1" exClientU1 9 rfl rfl rfl

/-- C8: a handshake with no credential (`extractToken` yields `none` for a
query with no `token` parameter, or a falsy empty one) is closed with 1008
and the registry is untouched; a credential the verifier rejects is likewise
closed with 1008 and never stored. -/
theorem C8_auth_failure_closes_1008 (env : Env) (verify : String → Option String)
    (s : HubState) (ws : Nat) :
    extractToken [] = none
    ∧ extractToken [("token", "")] = none
    ∧ handleNewConnection env verify s none ws
        = (s, [Action.closeWs ws 1008 "Authentication required"])
    ∧ ∀ t, verify t = none →
        handleNewConnection env verify s (some t) ws
          = (s, [Action.closeWs ws 1008 "Invalid authentication"]) := by
  refine ⟨rfl, rfl, rfl, ?_⟩
  intro t ht
  simp [handleNewConnection, ht]

/-- Witness for C8: the verifier `exVerify` rejects `"badtok"`; the socket
on transport 7 is closed with 1008 and `exHub` is unchanged. -/
theorem C8_witness :
    handleNewConnection (okEnv 0) exVerify exHub none 7
      = (exHub, [Action.closeWs 7 1008 "Authentication required"])
    ∧ handleNewConnection (okEnv 0) exVerify exHub (some "badtok") 7
      = (exHub, [Action.closeWs 7 1008 "Invalid authentication"]) :=
  ⟨(C8_auth_failure_closes_1008 (okEnv 0) exVerify exHub 7).2.2.1,
   (C8_auth_failure_closes_1008 (okEnv 0) exVerify exHub 7).2.2.2 "badtok" rfl⟩

/-- C6 counterexample: the claim says an inbound frame with an unrecognized
type yields an error frame back to the sender.  On a well-formed frame of
type `"presence_sync"` the dispatcher's `default` branch only logs a
warning: the handler returns with state unchanged and an empty action trace
— no error frame is sent. -/
theorem C6_counterexample_unknown_type_silent :
    handleMessage (okEnv 0) exHub exClientU1 (some (InboundFrame.unknown "presence_sync"))
      = (exHub, exClientU1, []) := rfl

/-- C6 amended: a malformed inbound frame (decode failure) yields exactly
one `error` frame back to the sender, with the connection left open and no
state mutated; a well-formed frame of unrecognized type is silently ignored
(a console warning only) — no error frame, connection open, no state
mutation.  In both cases registry, membership, typing cache and markers are
untouched (the returned state equals the input state). -/
theorem C6_amended_protocol_errors (env : Env) (s : HubState) (c : ChatClient)
    (hs : env.sendOk c.wsId = true) :
    handleMessage env s c none
      = (s, c, [Action.frameSent c.wsId (Frame.errorFrame "Failed to process message")])
    ∧ ∀ ty, handleMessage env s c (some (InboundFrame.unknown ty)) = (s, c, []) := by
  constructor
  · simp [handleMessage, sendToClient, hs]
  · intro ty
    rfl

/-- Witness for C6 amended: `u1` over a healthy transport. -/
theorem C6_amended_witness :
    handleMessage (okEnv 0) exHub exClientU1 none
      = (exHub, exClientU1,
         [Action.frameSent 1 (Frame.errorFrame "Failed to process message")])
    ∧ handleMessage (okEnv 0) exHub exClientU1 (some (InboundFrame.unknown "bogus"))
      = (exHub, exClientU1, []) :=
  ⟨(C6_amended_protocol_errors (okEnv 0) exHub exClientU1 rfl).1,
   (C6_amended_protocol_errors (okEnv 0) exHub exClientU1 rfl).2 "bogus"⟩

theorem sendToClient_acts_mem (env : Env) (s : HubState) (c : ChatClient) (f : Frame)
    (P : Action → Prop)
    (h1 : P (Action.frameSent c.wsId f)) (h2 : P (Action.registryDelete c.userId)) :
    ∀ a ∈ (sendToClient env s c f).2, P a := by
  intro a ha
  unfold sendToClient at ha
  split at ha
  · simp at ha
    rw [ha]
    exact h1
  · simp at ha
    rw [ha]
    exact h2

theorem broadcastStep_foldl_mem (env : Env) (chatId : String) (f : Frame)
    (ex : Option String) (P : Action → Prop)
    (hf : ∀ w, P (Action.frameSent w f)) (hd : ∀ u, P (Action.registryDelete u)) :
    ∀ (l : List (String × ChatClient)) (init : HubState × List Action),
      (∀ a ∈ init.2, P a) →
      ∀ a ∈ (l.foldl (broadcastStep env chatId f ex) init).2, P a := by
  intro l
  induction l with
  | nil => intro init hinit a ha; exact hinit a ha
  | cons e t ih =>
      intro init hinit a ha
      rw [List.foldl_cons] at ha
      refine ih _ ?_ a ha
      intro x hx
      unfold broadcastStep at hx
      split at hx
      · rcases List.mem_append.mp hx with hl | hr
        · exact hinit x hl
        · exact sendToClient_acts_mem env init.1 e.2 f P (hf _) (hd _) x hr
      · exact hinit x hx

theorem broadcast_acts_mem (env : Env) (s : HubState) (chatId : String) (f : Frame)
    (ex : Option String) (P : Action → Prop)
    (hb : P (Action.broadcastEvent chatId f))
    (hf : ∀ w, P (Action.frameSent w f)) (hd : ∀ u, P (Action.registryDelete u)) :
    ∀ a ∈ (broadcastToChatParticipants env s chatId f ex).2, P a := by
  intro a ha
  unfold broadcastToChatParticipants at ha
  rcases List.mem_cons.mp ha with h | h
  · rw [h]
    exact hb
  · exact broadcastStep_foldl_mem env chatId f ex P hf hd s.clients (s, [])
      (fun x hx => absurd hx (List.not_mem_nil x)) a h

theorem clearTypingStatus_stamp (s : DbState) (chatId userId : String) (b : Bool) :
    cacheUserStamp (clearTypingStatus s chatId userId b) chatId userId = none := by
  unfold cacheUserStamp clearTypingStatus
  cases b
  · exact cacheRemoveUser_stamp _ _ _
  · exact cacheRemoveUser_stamp _ _ _

/-- C2 counterexample: the claim says a `join_chat` for a different chat
first performs a full leave of the old chat, including a `user_left`
broadcast to its remaining members.  Concretely: `u1` and `u2` are both in
`c1`; `u1` joins `c2`.  The chat identifier is overwritten to `c2`, yet no
`user_left` broadcast for `c1` appears anywhere in the trace — `u2` is never
told that `u1` left. -/
theorem C2_counterexample_direct_overwrite :
    mapGet exHub.clients "u2" = some exClientU2
    ∧ exClientU2.chatId = some "c1"
    ∧ ((handleJoinChat (okEnv 56000) exHub exClientU1 "c2").2.1).chatId = some "c2"
    ∧ Action.broadcastEvent "c1" (Frame.userLeft "u1" "c1")
        ∉ (handleJoinChat (okEnv 56000) exHub exClientU1 "c2").2.2
    ∧ Action.frameSent 2 (Frame.userLeft "u1" "c1")
        ∉ (handleJoinChat (okEnv 56000) exHub exClientU1 "c2").2.2 := by
  refine ⟨rfl, rfl, rfl, ?_, ?_⟩ <;> decide

/-- C2 amended: processing `join_chat` for chat `B` while the connection is
in a different chat `A` clears the user's typing entry for `A` (the trace
starts with that clear, and the cleared cache holds no stamp for the user)
but broadcasts no `user_left` event for any chat; the chat identifier is
then directly overwritten to `B`.  Only the typing-clear half of `leave`
runs — the leave broadcast is skipped. -/
theorem C2_amended_join_skips_leave_broadcast (env : Env) (s : HubState)
    (c : ChatClient) (A B : String) (hA : c.chatId = some A) (hAB : A ≠ B) :
    ((handleJoinChat env s c B).2.1).chatId = some B
    ∧ (handleJoinChat env s c B).2.2.head? = some (Action.typingCleared A c.userId)
    ∧ cacheUserStamp (clearTypingStatus s.db A c.userId (!env.gwOk)) A c.userId = none
    ∧ (∀ u ch ch', Action.broadcastEvent ch' (Frame.userLeft u ch)
        ∉ (handleJoinChat env s c B).2.2)
    ∧ (∀ w u ch, Action.frameSent w (Frame.userLeft u ch)
        ∉ (handleJoinChat env s c B).2.2) := by
  refine ⟨?_, ?_, ?_, ?_, ?_⟩
  · simp [handleJoinChat, hA]
  · simp [handleJoinChat, hA]
  · exact clearTypingStatus_stamp _ _ _ _
  · intro u ch ch' hmem
    simp only [handleJoinChat, hA] at hmem
    rcases List.mem_append.mp hmem with h12 | h3
    · rcases List.mem_append.mp h12 with h1 | h2
      · simp at h1
      · exact (broadcast_acts_mem env _ B (Frame.userJoined c.userId B) (some c.userId)
          (fun x => x ≠ Action.broadcastEvent ch' (Frame.userLeft u ch))
          (by simp) (fun w => by simp) (fun v => by simp) _ h2) rfl
    · exact (sendToClient_acts_mem env _ _ _
        (fun x => x ≠ Action.broadcastEvent ch' (Frame.userLeft u ch))
        (by simp) (by simp) _ h3) rfl
  · intro w u ch hmem
    simp only [handleJoinChat, hA] at hmem
    rcases List.mem_append.mp hmem with h12 | h3
    · rcases List.mem_append.mp h12 with h1 | h2
      · simp at h1
      · exact (broadcast_acts_mem env _ B (Frame.userJoined c.userId B) (some c.userId)
          (fun x => x ≠ Action.frameSent w (Frame.userLeft u ch))
          (by simp) (fun w2 => by simp) (fun v => by simp) _ h2) rfl
    · exact (sendToClient_acts_mem env _ _ _
        (fun x => x ≠ Action.frameSent w (Frame.userLeft u ch))
        (by simp) (by simp) _ h3) rfl

/-- Witness for C2 amended: `u1` switches from `c1` to `c2` in `exHub`. -/
theorem C2_amended_witness :
    ((handleJoinChat (okEnv 56000) exHub exClientU1 "c2").2.1).chatId = some "c2"
    ∧ (handleJoinChat (okEnv 56000) exHub exClientU1 "c2").2.2.head?
        = some (Action.typingCleared "c1" "u1")
    ∧ Action.frameSent 2 (Frame.userLeft "u1" "c1")
        ∉ (handleJoinChat (okEnv 56000) exHub exClientU1 "c2").2.2 :=
  ⟨(C2_amended_join_skips_leave_broadcast (okEnv 56000) exHub exClientU1 "c1" "c2"
      rfl (by decide)).1,
   (C2_amended_join_skips_leave_broadcast (okEnv 56000) exHub exClientU1 "c1" "c2"
      rfl (by decide)).2.1,
   (C2_amended_join_skips_leave_broadcast (okEnv 56000) exHub exClientU1 "c1" "c2"
      rfl (by decide)).2.2.2.2 2 "u1" "c1"⟩

end PatientPsi
